import Mathlib

/-!
Verification of the CLI-output parsing engine of the Pynt cisco fetcher
(`pynt/input/cisco.py`).  The parsers are embedded shallowly: each Python
function becomes a Lean function over explicit state, fixed-column slicing
becomes `List.take`/`List.drop`, and the three hand-written regular
expressions are embedded as deterministic matchers whose equivalence with
the greedy backtracking semantics is argued in the comments next to each
definition.  Character classes are the ASCII restriction of Python's
(device CLI output is ASCII).
-/

deriving instance DecidableEq for Except

/-- Raw text is modelled as a list of characters. -/
abbrev Chars := List Char

/-- ASCII restriction of the regex class `[a-zA-Z]`. -/
def isAlphaC (c : Char) : Bool :=
  (65 ≤ c.toNat && c.toNat ≤ 90) || (97 ≤ c.toNat && c.toNat ≤ 122)

/-- ASCII restriction of the regex class `\d`. -/
def isDigitC (c : Char) : Bool :=
  48 ≤ c.toNat && c.toNat ≤ 57

/-- ASCII restriction of the regex class `\s` (tab, lf, vtab, ff, cr, space). -/
def isSpaceC (c : Char) : Bool :=
  (9 ≤ c.toNat && c.toNat ≤ 13) || c.toNat == 32

/-- Python `str.rstrip()`: drop trailing whitespace. -/
def rstrip (s : Chars) : Chars :=
  (s.reverse.dropWhile isSpaceC).reverse

/-- Convert a string literal to the character-list representation. -/
def chars (s : String) : Chars := s.toList

/-- Parse error kinds.  The five `ParsingException` raise sites of
`cisco.py` are told apart by constructor, matching the spec's error names;
`unboundLocal` stands for Python's `UnboundLocalError`, which is *not* a
`ParsingException`. -/
inductive PErr where
  | malformedInterfaceName
  | unknownStatus
  | invalidVlanId
  | missingVlanHeader
  | emptyDeviceId
  | unboundLocal
deriving DecidableEq, Repr

/-- Which error kinds are pynt `ParsingException`s (local, recoverable
parse errors); `UnboundLocalError` is not one. -/
def isParsingExc : PErr → Bool
  | .unboundLocal => false
  | _ => true

/-!
### The interface-name pattern (`cisco.py` line 41)

`iface_re = ^\s*([a-zA-Z]{,2})[a-zA-Z]*(\d+/?\d*\.?\d*)\s*$`

Deterministic form.  Greedy backtracking cannot produce any other match:
`\s*` takes the maximal space run (no later element matches a space);
the two letter elements together take the maximal letter run and group 1
gets its first `min 2` letters; the digit elements `\d+ /? \d* \.? \d*`
denote the same language as `\d+ ('/' \d*)? ('.' \d*)?` (a `\d*` directly
after an untaken option merges into the preceding digit run), and since
every character they can consume is non-space while the tail `\s*$`
consumes only spaces, a successful match must consume the maximal runs —
giving back characters can never help.
-/

/-- The optional `/?\d*` element: consume a leading slash and the digit
run after it, if present. -/
def slashSplit (r : Chars) : Chars × Chars :=
  match r with
  | '/' :: rest => ('/' :: rest.takeWhile isDigitC, rest.dropWhile isDigitC)
  | _ => ([], r)

/-- The optional `\.?\d*` element: consume a leading dot and the digit run
after it, if present. -/
def dotSplit (r : Chars) : Chars × Chars :=
  match r with
  | '.' :: rest => ('.' :: rest.takeWhile isDigitC, rest.dropWhile isDigitC)
  | _ => ([], r)

def matchIfaceRe (s : Chars) : Option (Chars × Chars) :=
  let t1 := s.dropWhile isSpaceC
  let letters := t1.takeWhile isAlphaC
  let r2 := t1.dropWhile isAlphaC
  let d1 := r2.takeWhile isDigitC
  let r3 := r2.dropWhile isDigitC
  if d1.isEmpty then none
  else
    let slashPart := slashSplit r3
    let dotPart := dotSplit slashPart.2
    if dotPart.2.all isSpaceC then
      some (letters.take 2, d1 ++ slashPart.1 ++ dotPart.1)
    else
      none

/-- `splitIface` (`cisco.py` lines 84-89): match against `iface_re`; on a
match with a truthy group 1 or group 2 return
`(group1 ++ group2, group1, group2)`, otherwise raise
`MalformedInterfaceName`. -/
def splitIface (iface : Chars) : Except PErr (Chars × Chars × Chars) :=
  match matchIfaceRe iface with
  | some (g1, g2) =>
      if !g1.isEmpty || !g2.isEmpty then .ok (g1 ++ g2, g1, g2)
      else .error .malformedInterfaceName
  | none => .error .malformedInterfaceName

/-!
### Data model

The domain objects (`Interface`, `Vlan`, the per-device collections and the
process-wide registry) live in `pynt.elements` / `pynt.technologies.*`,
which are not part of the sources under verification; they are modelled
from the spec (§3): plain records with optional fields, owned in
insertion-ordered association lists, with get-or-create semantics.
Python values that may be either `int` or `str` (VLAN registry keys) are
modelled by `PyVal` with Python's cross-type equality. -/

/-- A dynamic Python value that is either an `int` or a `str`. -/
inductive PyVal where
  | intV : Nat → PyVal
  | strV : Chars → PyVal
deriving DecidableEq, Repr

/-- Python `==` on such values: an `int` never equals a `str`. -/
def pyEq : PyVal → PyVal → Bool
  | .intV a, .intV b => a == b
  | .strV a, .strV b => a == b
  | _, _ => false

/-- Modelled from the spec (§3): an Interface record; `linkStatus = none`
is the "unknown" state. -/
structure Iface where
  name : Option Chars := none
  pfx : Option Chars := none
  descr : Option Chars := none
  adminStatus : Option Chars := none
  linkStatus : Option Chars := none
deriving DecidableEq, Repr

/-- Modelled from the spec (§3): a VLAN record with its tagged and
untagged membership lists (idempotent insertion). -/
structure Vlan where
  vname : Option Chars := none
  vadminStatus : Option Chars := none
  vdescr : Option Chars := none
  tagged : List Chars := []
  untagged : List Chars := []
deriving DecidableEq, Repr

/-- Modelled from the spec (§3): a Device owns a mapping from interface
key to Interface and from VLAN key to VLAN.  VLAN keys are `PyVal`
because the two call sites of `getCreateVlan` in `cisco.py` pass values
of different Python types (line 133 a `str`, line 169 an `int`). -/
structure Dev where
  ifaces : List (Chars × Iface) := []
  vlans : List (PyVal × Vlan) := []
deriving DecidableEq, Repr

/-- Association-list lookup for interface keys. -/
def lookupIf (xs : List (Chars × Iface)) (k : Chars) : Option Iface :=
  match xs with
  | [] => none
  | (k', v) :: rest => if k' = k then some v else lookupIf rest k

/-- Association-list lookup for VLAN keys, under Python equality. -/
def lookupVl (xs : List (PyVal × Vlan)) (k : PyVal) : Option Vlan :=
  match xs with
  | [] => none
  | (k', v) :: rest => if pyEq k' k then some v else lookupVl rest k

/-- Modelled from the spec (§8): `getCreateNativeInterface` — return the
device unchanged when the key exists, otherwise append a fresh Interface
under that key. -/
def getCreateIface (d : Dev) (k : Chars) : Dev :=
  match lookupIf d.ifaces k with
  | some _ => d
  | none => { d with ifaces := d.ifaces ++ [(k, {})] }

/-- Update the interface stored under a key (no-op when absent). -/
def updIface (d : Dev) (k : Chars) (f : Iface → Iface) : Dev :=
  { d with ifaces := d.ifaces.map (fun p => if p.1 = k then (p.1, f p.2) else p) }

/-- Modelled from the spec (§8): `getCreateVlan` — get-or-create in the
VLAN mapping under the given key (Python equality). -/
def getCreateVlan (d : Dev) (k : PyVal) : Dev :=
  match lookupVl d.vlans k with
  | some _ => d
  | none => { d with vlans := d.vlans ++ [(k, {})] }

/-- Update the VLAN stored under a key (no-op when absent). -/
def updVlan (d : Dev) (k : PyVal) (f : Vlan → Vlan) : Dev :=
  { d with vlans := d.vlans.map (fun p => if pyEq p.1 k then (p.1, f p.2) else p) }

/-- Idempotent insertion into a membership list. -/
def insertMem (xs : List Chars) (k : Chars) : List Chars :=
  if k ∈ xs then xs else xs ++ [k]

/-- Modelled from the spec (§4.3): `AddTaggedInterface`. -/
def addTagged (d : Dev) (vk : PyVal) (ik : Chars) : Dev :=
  updVlan d vk (fun v => { v with tagged := insertMem v.tagged ik })

/-- Modelled from the spec (§4.3): `AddUntaggedInterface`. -/
def addUntagged (d : Dev) (vk : PyVal) (ik : Chars) : Dev :=
  updVlan d vk (fun v => { v with untagged := insertMem v.untagged ik })

/-- Global parsing state: the subject device (with its identifier), the
process-wide registry of neighbor devices keyed by their advertised
device id (spec §3, Device Registry; namespace uri is `device_id ++ "#"`
via `deviceIdToNsuri`), and the adjacency relation as a list of pairs of
(device id, interface key) endpoints. -/
structure St where
  subjId : Chars
  subj : Dev := {}
  registry : List (Chars × Dev) := []
  adj : List ((Chars × Chars) × (Chars × Chars)) := []
deriving DecidableEq, Repr

/-- Registry lookup, keyed by device id. -/
def lookupDev (xs : List (Chars × Dev)) (k : Chars) : Option Dev :=
  match xs with
  | [] => none
  | (k', v) :: rest => if k' = k then some v else lookupDev rest k

/-- Modelled from the spec (§3): get-or-create a (shadow) Device in the
registry (`GetCreateNamespace` + `GetCreateRDFObject`). -/
def getCreateDev (xs : List (Chars × Dev)) (k : Chars) : List (Chars × Dev) :=
  match lookupDev xs k with
  | some _ => xs
  | none => xs ++ [(k, {})]

/-- Update the device stored under an id (no-op when absent). -/
def updDev (xs : List (Chars × Dev)) (k : Chars) (f : Dev → Dev) :
    List (Chars × Dev) :=
  xs.map (fun p => if p.1 = k then (p.1, f p.2) else p)

/-!
### Interface-description table parser (`cisco.py` lines 91-147)
-/

/-- Truthiness of a Python string: nonempty. -/
def truthyS (s : Chars) : Bool := !s.isEmpty

/-- `parseInterfaceLine`: fixed-column slices name `[0:31]`, line/admin
status `[31:46]`, protocol/link status `[46:55]`, description `[55:]`,
each right-stripped; empty name skips the line; `splitIface` errors
propagate; prefixes `Fa`/`Gi`/`Te` populate an Interface, prefix `Vl`
populates a VLAN keyed by the *string* numeric path (source line 133
passes `iface_num`, a `str`, to `getCreateVlan`); other prefixes are
silently skipped.  Returns the Python function's boolean `result`
together with the new state. -/
def parseInterfaceLine (st : St) (line : Chars) : Except PErr (Bool × St) :=
  let ifname := rstrip (line.take 31)
  let lineStatus := rstrip ((line.drop 31).take 15)
  let protocolStatus := rstrip ((line.drop 46).take 9)
  let descr := rstrip (line.drop 55)
  if ifname.isEmpty then .ok (false, st)
  else
    match splitIface ifname with
    | .error e => .error e
    | .ok (ifaceId, ifacePfx, ifaceNum) =>
      if ifacePfx = chars (r"Fa") ∨ ifacePfx = chars (r"Gi") ∨
          ifacePfx = chars (r"Te") then
        let d1 := getCreateIface st.subj ifaceId
        let d2 := updIface d1 ifaceId (fun i =>
          { i with name := some ifaceId, pfx := some ifacePfx })
        let d3 := if truthyS descr then
            updIface d2 ifaceId (fun i => { i with descr := some descr })
          else d2
        if lineStatus = chars (r"admin down") ∨ lineStatus = chars (r"down") then
          let d4 := updIface d3 ifaceId (fun i =>
            { i with adminStatus := some (chars (r"down")) })
          -- line 126: the protocol column is examined only when the raw
          -- status text is exactly "up"
          .ok (true, { st with subj := d4 })
        else if lineStatus = chars (r"up") then
          let d4 := updIface d3 ifaceId (fun i =>
            { i with adminStatus := some (chars (r"up")) })
          if protocolStatus = chars (r"up") ∨ protocolStatus = chars (r"down") then
            let d5 := updIface d4 ifaceId (fun i =>
              { i with linkStatus := some protocolStatus })
            .ok (true, { st with subj := d5 })
          else .error .unknownStatus
        else .error .unknownStatus
      else if ifacePfx = chars (r"Vl") then
        let key := PyVal.strV ifaceNum
        let d1 := getCreateVlan st.subj key
        if lineStatus = chars (r"admin down") ∨ lineStatus = chars (r"down") then
          let d2 := updVlan d1 key (fun v =>
            { v with vadminStatus := some (chars (r"down")) })
          let d3 := if truthyS descr then
              updVlan d2 key (fun v => { v with vdescr := some descr })
            else d2
          .ok (true, { st with subj := d3 })
        else if lineStatus = chars (r"up") then
          let d2 := updVlan d1 key (fun v =>
            { v with vadminStatus := some (chars (r"up")) })
          let d3 := if truthyS descr then
              updVlan d2 key (fun v => { v with vdescr := some descr })
            else d2
          .ok (true, { st with subj := d3 })
        else .error .unknownStatus
      else .ok (false, st)

/-!
### VLAN-membership table parser (`cisco.py` lines 149-190)
-/

/-- Python `str.isdigit()` (ASCII): nonempty and all digits. -/
def allDigits (s : Chars) : Bool := !s.isEmpty && s.all isDigitC

/-- Python `int(...)` on an all-digits string. -/
def strToNatD (s : Chars) : Nat := s.foldl (fun n c => 10 * n + (c.toNat - 48)) 0

/-- Python `str.split(',')`: on the empty string this yields `[""]`. -/
def splitComma : Chars → List Chars
  | [] => [[]]
  | c :: rest =>
    if c = ',' then [] :: splitComma rest
    else
      match splitComma rest with
      | t :: ts => (c :: t) :: ts
      | [] => [[c]]

/-- Truthiness of a bound Vlan object (line 171 `if not vlan:` on a bound
variable): ordinary objects are always truthy in Python. -/
def vlanObjTruthy : Bool := true

/-- The inner loop over the comma-separated ports column (lines 178-189).
Each non-empty token is checked by `splitIface` (errors propagate), the
Interface is get-or-created under the *raw* token (line 185 passes
`iface_id`, not the normalized key), and membership is recorded:
line 186 `if (vlanid == 1):` compares the string id column of the current
line with the Python int `1`, embedded as `pyEq (.strV vlanidRaw) (.intV 1)`. -/
def vlanPortsLoop (st : St) (vk : PyVal) (vlanidRaw : Chars) :
    List Chars → Except PErr St
  | [] => .ok st
  | tk :: rest =>
    if tk.isEmpty then vlanPortsLoop st vk vlanidRaw rest
    else
      match splitIface tk with
      | .error e => .error e
      | .ok _ =>
        let st1 := { st with subj := getCreateIface st.subj tk }
        let st2 :=
          if pyEq (.strV vlanidRaw) (.intV 1) then
            { st1 with subj := addUntagged st1.subj vk tk }
          else
            { st1 with subj := addTagged st1.subj vk tk }
        vlanPortsLoop st2 vk vlanidRaw rest

/-- One line of `parseVlans` (lines 161-189): slices vlan id `[0:5]`,
name `[5:38]`, admin status `[38:48]` (right-stripped) and ports `[48:]`
with every whitespace character removed (`re.sub("\s+", "", ...)`).
A non-blank id must be all digits (else `InvalidVlanId`)and get-or-creates
the VLAN under the *int* id, incrementing the count.  Line 171 then reads
the local variable `vlan`: if it was never assigned, Python raises
`UnboundLocalError` — the `MissingVlanHeader` raise on line 172 sits
behind `not vlan` on a bound, always-truthy object and is unreachable. -/
def vlansStep (st : St) (curVlan : Option PyVal) (count : Nat) (line : Chars) :
    Except PErr (St × PyVal × Nat) :=
  let vlanid := rstrip (line.take 5)
  let vname := rstrip ((line.drop 5).take 33)
  let adminstatus := rstrip ((line.drop 38).take 10)
  let ports := (line.drop 48).filter (fun c => !isSpaceC c)
  let created : Except PErr (St × Option PyVal × Nat) :=
    if truthyS vlanid then
      if !allDigits vlanid then .error .invalidVlanId
      else
        let k := PyVal.intV (strToNatD vlanid)
        .ok ({ st with subj := getCreateVlan st.subj k }, some k, count + 1)
    else .ok (st, curVlan, count)
  match created with
  | .error e => .error e
  | .ok (st1, cur1, count1) =>
    match cur1 with
    | none => .error .unboundLocal
    | some vk =>
      if !vlanObjTruthy then .error .missingVlanHeader
      else
        let st2 :=
          if adminstatus = chars (r"active") ∨ adminstatus = chars (r"inactive")
          then { st1 with subj := updVlan st1.subj vk (fun v =>
                  { v with vadminStatus := some adminstatus }) }
          else st1
        let st3 := { st2 with subj := updVlan st2.subj vk (fun v =>
                  { v with vname := some vname }) }
        match vlanPortsLoop st3 vk vlanid (splitComma ports) with
        | .error e => .error e
        | .ok st4 => .ok (st4, vk, count1)

/-- The `parseVlans` loop over lines; `curVlan = none` models the local
variable `vlan` not yet being assigned. -/
def vlansLoop (st : St) (curVlan : Option PyVal) (count : Nat) :
    List Chars → Except PErr (Nat × St)
  | [] => .ok (count, st)
  | line :: rest =>
    match vlansStep st curVlan count line with
    | .error e => .error e
    | .ok (st', vk, count') => vlansLoop st' (some vk) count' rest

/-- `parseVlans` (lines 149-190): returns `vlancount` and the final state. -/
def parseVlans (st : St) (vlanlines : List Chars) : Except PErr (Nat × St) :=
  vlansLoop st none 0 vlanlines

/-- Right-pad with spaces to a column width (used to build concrete
fixed-column input lines). -/
def padTo (n : Nat) (s : Chars) : Chars :=
  s ++ List.replicate (n - s.length) ' '

/-!
### Neighbor-detail block parser (`cisco.py` lines 192-241)
-/

/-- Match a literal at the front of a line, returning the remainder. -/
def dropMarker : Chars → Chars → Option Chars
  | [], s => some s
  | _, [] => none
  | m :: ms, c :: cs => if m = c then dropMarker ms cs else none

/-- The entry separator line matched on `cisco.py` line 208 (25 dashes). -/
def separatorLine : Chars := chars (r"-------------------------")

/-- `device_id_re = ^Device ID: (\S+.*\S+)\s*$` (`cisco.py` line 42).
After the literal, the group `\S+.*\S+` with trailing `\s*$` matches the
remainder `r` exactly when `r` starts with a non-space character and
contains at least two characters once right-stripped (the first `\S+`
anchors at the start of `r`; the greedy `.*` then ends at the last
non-space character, so the captured group is `rstrip r`). -/
def matchDeviceId (line : Chars) : Option Chars :=
  match dropMarker (chars (r"Device ID: ")) line with
  | none => none
  | some r =>
    match r with
    | [] => none
    | c :: _ =>
      if isSpaceC c then none
      else if 2 ≤ (rstrip r).length then some (rstrip r) else none

/-- `iface_port_re = ^Interface: (\S+),  Port ID \(outgoing port\): (\S+)\s*$`
(`cisco.py` line 43).  Group 1 is `\S+` followed by the literal
`,  Port ID (outgoing port): ` whose second character is a space: since
backtracking can only return non-space characters from the maximal
non-space run, the only possible match puts the comma as the last
character of that run (group 1 is the run minus the comma, nonempty), and
the rest of the literal follows beyond the run.  Group 2 is the maximal
non-space run after the literal, nonempty, followed by whitespace only. -/
def matchIfacePort (line : Chars) : Option (Chars × Chars) :=
  match dropMarker (chars (r"Interface: ")) line with
  | none => none
  | some r =>
    let run := r.takeWhile (fun c => !isSpaceC c)
    let rest := r.dropWhile (fun c => !isSpaceC c)
    if run.length < 2 then none
    else if run.getLast? = some ',' then
      match dropMarker (chars (r"  Port ID (outgoing port): ")) rest with
      | none => none
      | some r2 =>
        let run2 := r2.takeWhile (fun c => !isSpaceC c)
        let rest2 := r2.dropWhile (fun c => !isSpaceC c)
        if run2.isEmpty then none
        else if rest2.all isSpaceC then some (run.dropLast, run2)
        else none
    else none

/-- Truthiness of the per-entry Python variables (`None` or a string). -/
def truthyOpt : Option Chars → Bool
  | none => false
  | some s => !s.isEmpty

/-- The two values of the `state` variable of `parseNeighbors`. -/
inductive Stage where
  | skipS
  | searchS
deriving DecidableEq, Repr

/-- The loop state of `parseNeighbors`: the global state plus the
per-entry variables `device_id`, `local_iface_id`, `remote_iface_id`
and `state` (initially `"skip"`, line 200). -/
structure NSt where
  st : St
  deviceId : Option Chars := none
  localId : Option Chars := none
  remoteId : Option Chars := none
  stage : Stage := .skipS
deriving DecidableEq, Repr

/-- Lines 233-241: get-or-create the remote Device in the registry, the
local Interface on the subject and the remote Interface on the remote
device, and record the Adjacency.  Modelled from the spec:
`addConnectedInterface` (pynt.elements, not under src/) establishes the
*symmetric* Adjacency (§3 Adjacency, §4.4), so both directions are added. -/
def linkNeighbor (ns : NSt) (d a b : Chars) : NSt :=
  let reg1 := getCreateDev ns.st.registry d
  let subj1 := getCreateIface ns.st.subj a
  let reg2 := updDev reg1 d (fun dev => getCreateIface dev b)
  { ns with
    st := { ns.st with
      registry := reg2
      subj := subj1
      adj := ns.st.adj ++
        [((ns.st.subjId, a), (d, b)), ((d, b), (ns.st.subjId, a))] }
    stage := .skipS }

/-- One line of `parseNeighbors` (lines 201-241): the separator resets the
entry and enters `"search"`; in `"skip"` everything else is ignored; while
no device id is captured only the Device ID pattern is tried (an empty
capture would raise `EmptyDeviceId`); otherwise, while the interface pair
is missing, the Interface/Port ID pattern is tried and both names are
normalized (`splitIface` errors propagate).  Finally, when all three
values are truthy, the adjacency is recorded and the entry is skipped. -/
def stepN (ns : NSt) (line : Chars) : Except PErr NSt :=
  if line = separatorLine then
    .ok { ns with deviceId := none, localId := none, remoteId := none,
                  stage := .searchS }
  else if ns.stage = .skipS then .ok ns
  else
    let captured : Except PErr NSt :=
      if !truthyOpt ns.deviceId then
        match matchDeviceId line with
        | some d =>
          if d.isEmpty then .error .emptyDeviceId
          else .ok { ns with deviceId := some d }
        | none => .ok ns
      else if !truthyOpt ns.localId || !truthyOpt ns.remoteId then
        match matchIfacePort line with
        | some (rawA, rawB) =>
          match splitIface rawA with
          | .error e => .error e
          | .ok (a, _, _) =>
            match splitIface rawB with
            | .error e => .error e
            | .ok (b, _, _) =>
              .ok { ns with localId := some a, remoteId := some b }
        | none => .ok ns
      else .ok ns
    match captured with
    | .error e => .error e
    | .ok ns2 =>
      match ns2.deviceId, ns2.localId, ns2.remoteId with
      | some d, some a, some b =>
        if truthyS d && truthyS a && truthyS b then .ok (linkNeighbor ns2 d a b)
        else .ok ns2
      | _, _, _ => .ok ns2

/-- The `parseNeighbors` loop over lines. -/
def neighborsLoop (ns : NSt) : List Chars → Except PErr NSt
  | [] => .ok ns
  | line :: rest =>
    match stepN ns line with
    | .error e => .error e
    | .ok ns' => neighborsLoop ns' rest

/-- Initial loop state of `parseNeighbors` (lines 197-200). -/
def initNSt (st : St) : NSt := { st := st }

/-- `parseNeighbors` (lines 192-241), returning the final state. -/
def parseNeighbors (st : St) (neighborlines : List Chars) : Except PErr NSt :=
  neighborsLoop (initNSt st) neighborlines

/-!
### Accessors used by the theorem statements
-/

/-- The link status of the interface stored under a key (`none` both when
the interface is absent and when its link status is unknown). -/
def ifaceLink (d : Dev) (k : Chars) : Option Chars :=
  (lookupIf d.ifaces k).bind Iface.linkStatus

/-- The adjacency list of a `parseNeighbors` outcome. -/
def adjAfter (e : Except PErr NSt) : List ((Chars × Chars) × (Chars × Chars)) :=
  match e with
  | .ok ns => ns.st.adj
  | .error _ => []

/-- The returned count of a `parseVlans` outcome. -/
def vlanCountAfter (e : Except PErr (Nat × St)) : Option Nat :=
  match e with
  | .ok (n, _) => some n
  | .error _ => none

/-- The tagged membership of a VLAN in a `parseVlans` outcome. -/
def vlanTaggedAfter (e : Except PErr (Nat × St)) (k : PyVal) :
    Option (List Chars) :=
  match e with
  | .ok (_, st) => (lookupVl st.subj.vlans k).map Vlan.tagged
  | .error _ => none

/-- The untagged membership of a VLAN in a `parseVlans` outcome. -/
def vlanUntaggedAfter (e : Except PErr (Nat × St)) (k : PyVal) :
    Option (List Chars) :=
  match e with
  | .ok (_, st) => (lookupVl st.subj.vlans k).map Vlan.untagged
  | .error _ => none

/-- The list of VLAN registry keys of a device, in insertion order. -/
def vlanKeys (d : Dev) : List PyVal := d.vlans.map Prod.fst

/-- A concrete subject state used in the concrete-input theorems. -/
def initSt : St := { subjId := chars (r"C65M3.jscc.ru") }

/-- Whether an `Except` outcome is a success. -/
def isOkE : Except PErr α → Bool
  | .ok _ => true
  | .error _ => false

/-- The number of input rows whose vlan-id column `[0:5]` is non-blank
after right-stripping. -/
def countIdRows (lines : List Chars) : Nat :=
  (lines.filter (fun l => truthyS (rstrip (l.take 5)))).length

/-- The list of VLAN registry keys of a `parseVlans` outcome. -/
def vlanKeysAfter (e : Except PErr (Nat × St)) : List PyVal :=
  match e with
  | .ok (_, st) => vlanKeys st.subj
  | .error _ => []

/-!
### Concrete input lines for the concrete-input theorems
-/

/-- VLAN-table header row for VLAN 1 with one port (cf. the sample row on
`cisco.py` line 159). -/
def vlan1Row : Chars :=
  padTo 5 (chars (r"1")) ++ padTo 33 (chars (r"default")) ++
    padTo 10 (chars (r"active")) ++ chars (r"Gi1/46")

/-- Interface-description line for the pseudo-interface `Vl10`. -/
def vl10Line : Chars :=
  padTo 31 (chars (r"Vl10")) ++ padTo 15 (chars (r"up")) ++
    padTo 9 (chars (r"up"))

/-- VLAN-table header row for VLAN 10 (empty ports column). -/
def vlan10Row : Chars :=
  padTo 5 (chars (r"10")) ++ padTo 33 (chars (r"RASNET")) ++
    padTo 10 (chars (r"active"))

/-- The states reached by feeding `Vl10` to the description parser and
then the id-10 row to the VLAN-table parser. -/
def c2State : Except PErr (Nat × St) :=
  match parseInterfaceLine initSt vl10Line with
  | .ok (_, st1) => parseVlans st1 [vlan10Row]
  | .error e => .error e

/-- First VLAN-table row with id column `20`. -/
def vlan20RowA : Chars :=
  padTo 5 (chars (r"20")) ++ padTo 33 (chars (r"alpha")) ++
    padTo 10 (chars (r"active")) ++ chars (r"Gi1/1")

/-- A second VLAN-table row with the *same* id column `20`. -/
def vlan20RowB : Chars :=
  padTo 5 (chars (r"20")) ++ padTo 33 (chars (r"beta")) ++
    padTo 10 (chars (r"active")) ++ chars (r"Gi1/2")

/-- A VLAN-table line whose id column is blank. -/
def blankIdRow : Chars :=
  padTo 5 [] ++ padTo 33 (chars (r"orphan")) ++ padTo 10 (chars (r"active")) ++
    chars (r"Gi1/3")

/-- Interface-description line: admin-down `Gi2/1` with garbage in the
protocol column. -/
def c7Line : Chars :=
  padTo 31 (chars (r"Gi2/1")) ++ padTo 15 (chars (r"admin down")) ++
    padTo 9 (chars (r"garbage!")) ++ chars (r"eth0")

/-- A neighbor-parser state just after a separator: searching, with no
device id captured yet. -/
def c10NSt : NSt := { st := initSt, stage := .searchS }

/-- A neighbor-detail interface line. -/
def c10IfaceLine : Chars :=
  chars (r"Interface: TenGigabitEthernet3/4,  Port ID (outgoing port): TenGigabitEthernet9/2")

/-- Neighbor-block prefix: a separator and a Device ID line. -/
def c6Pre : List Chars := [separatorLine, chars (r"Device ID: C65M4.jscc.ru")]

/-- The parser state reached after `c6Pre`. -/
def c6NSt : NSt :=
  { st := initSt, deviceId := some (chars (r"C65M4.jscc.ru")),
    stage := .searchS }

example : splitIface (chars (r"TenGigabitEthernet4/1")) =
    .ok (chars (r"Te4/1"), chars (r"Te"), chars (r"4/1")) := by decide

example : splitIface (chars (r"  Gi1/46 ")) =
    .ok (chars (r"Gi1/46"), chars (r"Gi"), chars (r"1/46")) := by decide

example : splitIface (chars (r"Gi1/2/3")) = .error .malformedInterfaceName := by
  decide

example : splitIface (chars (r"???")) = .error .malformedInterfaceName := by
  decide

example : splitIface (chars (r"Vl10")) =
    .ok (chars (r"Vl10"), chars (r"Vl"), chars (r"10")) := by decide

example : matchDeviceId (chars (r"Device ID: C65M4.jscc.ru")) =
    some (chars (r"C65M4.jscc.ru")) := by decide

example : matchIfacePort
    (chars (r"Interface: TenGigabitEthernet3/4,  Port ID (outgoing port): TenGigabitEthernet9/2")) =
    some (chars (r"TenGigabitEthernet3/4"), chars (r"TenGigabitEthernet9/2")) := by
  decide

/-- C1: the claim says a port token of a row whose current VLAN has id 1 is
recorded as *untagged* membership.  The code (`cisco.py` line 186) compares
the string id column with the Python int `1`, which is never equal, so even
for the VLAN-1 header row the interface is recorded as *tagged* and the
untagged set stays empty. -/
theorem c1_vlan1_member_recorded_tagged :
    vlanTaggedAfter (parseVlans initSt [vlan1Row]) (.intV 1) =
      some [chars (r"Gi1/46")] ∧
    vlanUntaggedAfter (parseVlans initSt [vlan1Row]) (.intV 1) = some [] := by
  decide

/-- C2: the claim says the description parser and the VLAN-table parser
operate on one single VLAN object for the numeric id 10.  The description
parser (`cisco.py` line 133) keys by the *string* path `"10"` while the
VLAN-table parser (line 169) keys by the *int* `10`; under Python equality
these are distinct keys, so two separate VLAN entries exist afterwards. -/
theorem c2_vlan_key_types_create_duplicate :
    vlanKeysAfter c2State = [.strV (chars (r"10")), .intV 10] ∧
    (vlanKeysAfter c2State).length = 2 := by decide

/-- C3: the claim says a first line with a blank id column fails with the
`MissingVlanHeader` parse error.  The local variable `vlan` is read on
`cisco.py` line 171 before it was ever assigned, so Python raises
`UnboundLocalError` — which is not a pynt `ParsingException` — and the
`MissingVlanHeader` raise on line 172 is never reached. -/
theorem c3_blank_first_row_unbound_local :
    parseVlans initSt [blankIdRow] = .error .unboundLocal ∧
    isParsingExc .unboundLocal = false ∧
    PErr.unboundLocal ≠ PErr.missingVlanHeader := by decide

/-- C4 counterexample: the claim says a numeric id appearing in the id
column of two different rows contributes exactly one to the returned
count; the code increments `vlancount` on every non-blank id row, so the
two id-20 rows yield a count of 2, not 1. -/
theorem c4_counterexample_repeated_id_counted_twice :
    vlanCountAfter (parseVlans initSt [vlan20RowA, vlan20RowB]) = some 2 ∧
    vlanCountAfter (parseVlans initSt [vlan20RowA, vlan20RowB]) ≠ some 1 := by
  decide

/-- C5 counterexample: the claim says a name whose path has two or more
slash-separated components, such as `Gi1/2/3`, is accepted; the pattern
`\d+/?\d*\.?\d*` admits at most one slash, so `splitIface` rejects it
with `MalformedInterfaceName`. -/
theorem c5_counterexample_two_slash_path_rejected :
    splitIface (chars (r"Gi1/2/3")) = .error .malformedInterfaceName := by
  decide

/-- One `parseVlans` line increments the count exactly when the id column
is non-blank. -/
theorem vlansStep_count (st : St) (cv : Option PyVal) (c : Nat) (line : Chars)
    (st' : St) (vk : PyVal) (c' : Nat)
    (h : vlansStep st cv c line = .ok (st', vk, c')) :
    c' = c + (if truthyS (rstrip (line.take 5)) then 1 else 0) := by
  simp only [vlansStep, vlanObjTruthy, Bool.not_true, Bool.false_eq_true,
    if_false] at h
  split at h
  · simp at h
  · rename_i st1 cur1 count1 heq
    split at h
    · simp at h
    · split at h
      · simp at h
      · rename_i st4 hports
        simp only [Except.ok.injEq, Prod.mk.injEq] at h
        by_cases hc : truthyS (rstrip (List.take 5 line)) = true
        · rw [if_pos hc] at heq ⊢
          split at heq
          · simp at heq
          · simp only [Except.ok.injEq, Prod.mk.injEq] at heq
            omega
        · rw [if_neg hc] at heq ⊢
          simp only [Except.ok.injEq, Prod.mk.injEq] at heq
          omega

/-- The `parseVlans` loop adds one to the count for exactly the rows whose
id column is non-blank. -/
theorem vlansLoop_count (lines : List Chars) : ∀ (st : St) (cv : Option PyVal)
    (c n : Nat) (stF : St), vlansLoop st cv c lines = .ok (n, stF) →
    n = c + countIdRows lines := by
  induction lines with
  | nil =>
    intro st cv c n stF h
    simp only [vlansLoop, Except.ok.injEq, Prod.mk.injEq] at h
    simp [countIdRows, ← h.1]
  | cons line rest ih =>
    intro st cv c n stF h
    simp only [vlansLoop] at h
    split at h
    · simp at h
    · rename_i st' vk c' hstep
      have h1 := vlansStep_count st cv c line st' vk c' hstep
      have h2 := ih st' (some vk) c' n stF h
      have hcons : countIdRows (line :: rest) =
          (if truthyS (rstrip (line.take 5)) then 1 else 0) + countIdRows rest := by
        simp only [countIdRows, List.filter_cons]
        split <;> simp [Nat.add_comm]
      omega

/-- C4 (amended): `parseVlans` returns the number of rows whose id column
is non-blank — repeated ids are counted once per row they head, and
continuation rows with a blank id column contribute nothing. -/
theorem c4_returns_nonblank_id_row_count (st : St) (lines : List Chars)
    (h : isOkE (parseVlans st lines) = true) :
    vlanCountAfter (parseVlans st lines) = some (countIdRows lines) := by
  cases heq : parseVlans st lines with
  | error e => rw [heq] at h; simp [isOkE] at h
  | ok p =>
    obtain ⟨n, stF⟩ := p
    simp only [parseVlans] at heq
    have := vlansLoop_count lines st none 0 n stF heq
    simp only [parseVlans, heq, vlanCountAfter, this, Nat.zero_add]

/-- Witness for C4 (amended) at a concrete two-row input. -/
theorem c4_returns_nonblank_id_row_count_witness :
    vlanCountAfter (parseVlans initSt [vlan20RowA, vlan20RowB]) =
      some (countIdRows [vlan20RowA, vlan20RowB]) :=
  c4_returns_nonblank_id_row_count initSt [vlan20RowA, vlan20RowB] (by decide)

/-- A letter is not whitespace. -/
theorem alpha_not_space (c : Char) (h : isAlphaC c = true) : isSpaceC c = false := by
  rw [Bool.eq_false_iff]
  intro hs
  simp only [isAlphaC, Bool.or_eq_true, Bool.and_eq_true, decide_eq_true_eq] at h
  simp only [isSpaceC, Bool.or_eq_true, Bool.and_eq_true, decide_eq_true_eq,
    beq_iff_eq] at hs
  omega

/-- A digit is not whitespace. -/
theorem digit_not_space (c : Char) (h : isDigitC c = true) : isSpaceC c = false := by
  rw [Bool.eq_false_iff]
  intro hs
  simp only [isDigitC, Bool.and_eq_true, decide_eq_true_eq] at h
  simp only [isSpaceC, Bool.or_eq_true, Bool.and_eq_true, decide_eq_true_eq,
    beq_iff_eq] at hs
  omega

/-- A digit is not a letter. -/
theorem digit_not_alpha (c : Char) (h : isDigitC c = true) : isAlphaC c = false := by
  rw [Bool.eq_false_iff]
  intro ha
  simp only [isDigitC, Bool.and_eq_true, decide_eq_true_eq] at h
  simp only [isAlphaC, Bool.or_eq_true, Bool.and_eq_true, decide_eq_true_eq] at ha
  omega

/-- If a predicate holds on all of `xs` and fails on the head of `ys`,
`takeWhile` over the concatenation stops exactly at `xs`. -/
theorem takeWhile_append_all (p : Char → Bool) (xs : Chars) : ∀ (ys : Chars),
    (∀ c ∈ xs, p c = true) → (∀ c, ys.head? = some c → p c = false) →
    (xs ++ ys).takeWhile p = xs := by
  induction xs with
  | nil =>
    intro ys h1 h2
    cases ys with
    | nil => simp
    | cons a as => simp [List.takeWhile_cons, h2 a rfl]
  | cons a as ih =>
    intro ys h1 h2
    simp only [List.cons_append, List.takeWhile_cons, h1 a (by simp), if_true,
      List.cons.injEq, true_and]
    exact ih ys (fun c hc => h1 c (by simp [hc])) h2

/-- Companion of `takeWhile_append_all` for `dropWhile`. -/
theorem dropWhile_append_all (p : Char → Bool) (xs : Chars) : ∀ (ys : Chars),
    (∀ c ∈ xs, p c = true) → (∀ c, ys.head? = some c → p c = false) →
    (xs ++ ys).dropWhile p = ys := by
  induction xs with
  | nil =>
    intro ys h1 h2
    cases ys with
    | nil => simp
    | cons a as => simp [List.dropWhile_cons, h2 a rfl]
  | cons a as ih =>
    intro ys h1 h2
    simp only [List.cons_append, List.dropWhile_cons, h1 a (by simp), if_true]
    exact ih ys (fun c hc => h1 c (by simp [hc])) h2

/-- Whitespace is not a digit. -/
theorem space_not_digit (c : Char) (h : isSpaceC c = true) : isDigitC c = false := by
  rw [Bool.eq_false_iff]
  intro hd
  simp only [isSpaceC, Bool.or_eq_true, Bool.and_eq_true, decide_eq_true_eq,
    beq_iff_eq] at h
  simp only [isDigitC, Bool.and_eq_true, decide_eq_true_eq] at hd
  omega

/-- Whitespace is not the slash character. -/
theorem space_ne_slash (c : Char) (h : isSpaceC c = true) : c ≠ '/' := by
  intro he
  subst he
  exact absurd h (by decide)

/-- The first character of `ls ++ (d1 ++ rest)` with `ls` letters and `d1`
a nonempty digit run is never whitespace. -/
theorem head_ls_d1_not_space (ls d1 rest : Chars)
    (hls : ∀ c ∈ ls, isAlphaC c = true) (hd1 : d1 ≠ [])
    (hd1d : ∀ c ∈ d1, isDigitC c = true) :
    ∀ c, (ls ++ (d1 ++ rest)).head? = some c → isSpaceC c = false := by
  intro c hc
  cases ls with
  | cons a as =>
    simp only [List.cons_append, List.head?_cons, Option.some.injEq] at hc
    exact hc ▸ alpha_not_space a (hls a (by simp))
  | nil =>
    cases d1 with
    | nil => exact absurd rfl hd1
    | cons e es =>
      simp only [List.nil_append, List.cons_append, List.head?_cons,
        Option.some.injEq] at hc
      exact hc ▸ digit_not_space e (hd1d e (by simp))

/-- The first character of `d1 ++ rest` with `d1` a nonempty digit run is
never a letter. -/
theorem head_d1_not_alpha (d1 rest : Chars) (hd1 : d1 ≠ [])
    (hd1d : ∀ c ∈ d1, isDigitC c = true) :
    ∀ c, (d1 ++ rest).head? = some c → isAlphaC c = false := by
  intro c hc
  cases d1 with
  | nil => exact absurd rfl hd1
  | cons e es =>
    simp only [List.cons_append, List.head?_cons, Option.some.injEq] at hc
    exact hc ▸ digit_not_alpha e (hd1d e (by simp))

/-- The first character of a whitespace run is never a digit. -/
theorem head_ws_not_digit (ws : Chars) (hws : ∀ c ∈ ws, isSpaceC c = true) :
    ∀ c, ws.head? = some c → isDigitC c = false := by
  intro c hc
  cases ws with
  | nil => simp at hc
  | cons w rest =>
    simp only [List.head?_cons, Option.some.injEq] at hc
    exact hc ▸ space_not_digit w (hws w (by simp))

/-- A list starting with a fixed non-digit character has a non-digit head. -/
theorem head_cons_not_digit (x : Char) (hx : isDigitC x = false) (rest : Chars) :
    ∀ c, (x :: rest).head? = some c → isDigitC c = false := by
  intro c hc
  simp only [List.head?_cons, Option.some.injEq] at hc
  exact hc ▸ hx

/-- Whitespace is not the dot character. -/
theorem space_ne_dot (c : Char) (h : isSpaceC c = true) : c ≠ '.' := by
  intro he
  subst he
  exact absurd h (by decide)

/-- `slashSplit` on a list starting with a slash. -/
theorem slashSplit_slash (rest : Chars) :
    slashSplit ('/' :: rest) =
      ('/' :: rest.takeWhile isDigitC, rest.dropWhile isDigitC) := rfl

/-- `slashSplit` on the empty list. -/
theorem slashSplit_nil : slashSplit [] = ([], []) := rfl

/-- `slashSplit` on a list starting with anything but a slash. -/
theorem slashSplit_other (a : Char) (rest : Chars) (h : a ≠ '/') :
    slashSplit (a :: rest) = ([], a :: rest) := by
  unfold slashSplit
  split
  · rename_i heq
    injection heq with h1 _
    exact absurd h1 h
  · rfl

/-- `dotSplit` on a list starting with a dot. -/
theorem dotSplit_dot (rest : Chars) :
    dotSplit ('.' :: rest) =
      ('.' :: rest.takeWhile isDigitC, rest.dropWhile isDigitC) := rfl

/-- `dotSplit` on the empty list. -/
theorem dotSplit_nil : dotSplit [] = ([], []) := rfl

/-- `dotSplit` on a list starting with anything but a dot. -/
theorem dotSplit_other (a : Char) (rest : Chars) (h : a ≠ '.') :
    dotSplit (a :: rest) = ([], a :: rest) := by
  unfold dotSplit
  split
  · rename_i heq
    injection heq with h1 _
    exact absurd h1 h
  · rfl

/-- Acceptance of `iface_re`: optional whitespace, a letter run (the first
two letters captured), a digit run, an optional slash group, an optional
dot group and trailing whitespace always match, with group 2 being the
numeric path. -/
theorem matchIfaceRe_accepts (ws1 ls d1 sp dp ws2 : Chars)
    (hws1 : ∀ c ∈ ws1, isSpaceC c = true)
    (hls : ∀ c ∈ ls, isAlphaC c = true)
    (hd1 : d1 ≠ []) (hd1d : ∀ c ∈ d1, isDigitC c = true)
    (hsp : sp = [] ∨ ∃ d2, sp = '/' :: d2 ∧ ∀ c ∈ d2, isDigitC c = true)
    (hdp : dp = [] ∨ ∃ d3, dp = '.' :: d3 ∧ ∀ c ∈ d3, isDigitC c = true)
    (hws2 : ∀ c ∈ ws2, isSpaceC c = true) :
    matchIfaceRe (ws1 ++ (ls ++ (d1 ++ (sp ++ (dp ++ ws2))))) =
      some (ls.take 2, d1 ++ (sp ++ dp)) := by
  have e6 : d1.isEmpty = false := by
    cases d1 with
    | nil => exact absurd rfl hd1
    | cons _ _ => rfl
  have hallws2 : ws2.all isSpaceC = true := List.all_eq_true.mpr hws2
  rcases hsp with rfl | ⟨d2, rfl, hd2⟩ <;> rcases hdp with rfl | ⟨d3, rfl, hd3⟩
  · -- no slash group, no dot group
    simp only [List.nil_append, List.append_nil]
    have hnd := head_ws_not_digit ws2 hws2
    have e1 := dropWhile_append_all isSpaceC ws1 (ls ++ (d1 ++ ws2)) hws1
      (head_ls_d1_not_space ls d1 ws2 hls hd1 hd1d)
    have e2 := takeWhile_append_all isAlphaC ls (d1 ++ ws2) hls
      (head_d1_not_alpha d1 ws2 hd1 hd1d)
    have e3 := dropWhile_append_all isAlphaC ls (d1 ++ ws2) hls
      (head_d1_not_alpha d1 ws2 hd1 hd1d)
    have e4 := takeWhile_append_all isDigitC d1 ws2 hd1d hnd
    have e5 := dropWhile_append_all isDigitC d1 ws2 hd1d hnd
    cases ws2 with
    | nil =>
      simp only [List.append_nil] at e1 e2 e3 e4 e5
      simp only [matchIfaceRe, e1, e2, e3, e4, e5, e6, Bool.false_eq_true,
        if_false, slashSplit_nil, dotSplit_nil, List.all_nil, if_true,
        List.append_nil]
    | cons w ws' =>
      have hw : isSpaceC w = true := hws2 w (by simp)
      simp only [matchIfaceRe, e1, e2, e3, e4, e5, e6, Bool.false_eq_true,
        if_false, slashSplit_other w ws' (space_ne_slash w hw),
        dotSplit_other w ws' (space_ne_dot w hw), hallws2, if_true,
        List.append_nil]
  · -- no slash group, dot group present
    simp only [List.nil_append]
    have hnd := head_cons_not_digit '.' (by decide) (d3 ++ ws2)
    have e1 := dropWhile_append_all isSpaceC ws1
      (ls ++ (d1 ++ ('.' :: (d3 ++ ws2)))) hws1
      (head_ls_d1_not_space ls d1 ('.' :: (d3 ++ ws2)) hls hd1 hd1d)
    have e2 := takeWhile_append_all isAlphaC ls (d1 ++ ('.' :: (d3 ++ ws2))) hls
      (head_d1_not_alpha d1 ('.' :: (d3 ++ ws2)) hd1 hd1d)
    have e3 := dropWhile_append_all isAlphaC ls (d1 ++ ('.' :: (d3 ++ ws2))) hls
      (head_d1_not_alpha d1 ('.' :: (d3 ++ ws2)) hd1 hd1d)
    have e4 := takeWhile_append_all isDigitC d1 ('.' :: (d3 ++ ws2)) hd1d hnd
    have e5 := dropWhile_append_all isDigitC d1 ('.' :: (d3 ++ ws2)) hd1d hnd
    have e7 := takeWhile_append_all isDigitC d3 ws2 hd3 (head_ws_not_digit ws2 hws2)
    have e8 := dropWhile_append_all isDigitC d3 ws2 hd3 (head_ws_not_digit ws2 hws2)
    simp only [List.cons_append, List.nil_append] at e1 e2 e3 e4 e5 ⊢
    simp only [matchIfaceRe, e1, e2, e3, e4, e5, e6, Bool.false_eq_true,
      if_false, slashSplit_other '.' (d3 ++ ws2) (by decide), dotSplit_dot,
      e7, e8, hallws2, if_true, List.nil_append, List.append_nil]
  · -- slash group present, no dot group
    simp only [List.nil_append, List.append_nil]
    have hnd := head_cons_not_digit '/' (by decide) (d2 ++ ws2)
    have e1 := dropWhile_append_all isSpaceC ws1
      (ls ++ (d1 ++ ('/' :: d2 ++ ws2))) hws1
      (head_ls_d1_not_space ls d1 ('/' :: d2 ++ ws2) hls hd1 hd1d)
    have e2 := takeWhile_append_all isAlphaC ls (d1 ++ ('/' :: d2 ++ ws2)) hls
      (head_d1_not_alpha d1 ('/' :: d2 ++ ws2) hd1 hd1d)
    have e3 := dropWhile_append_all isAlphaC ls (d1 ++ ('/' :: d2 ++ ws2)) hls
      (head_d1_not_alpha d1 ('/' :: d2 ++ ws2) hd1 hd1d)
    have e4 : (d1 ++ ('/' :: d2 ++ ws2)).takeWhile isDigitC = d1 := by
      simp only [List.cons_append]
      exact takeWhile_append_all isDigitC d1 ('/' :: (d2 ++ ws2)) hd1d hnd
    have e5 : (d1 ++ ('/' :: d2 ++ ws2)).dropWhile isDigitC =
        '/' :: (d2 ++ ws2) := by
      simp only [List.cons_append]
      exact dropWhile_append_all isDigitC d1 ('/' :: (d2 ++ ws2)) hd1d hnd
    have e7 := takeWhile_append_all isDigitC d2 ws2 hd2 (head_ws_not_digit ws2 hws2)
    have e8 := dropWhile_append_all isDigitC d2 ws2 hd2 (head_ws_not_digit ws2 hws2)
    cases ws2 with
    | nil =>
      simp only [List.append_nil] at e1 e2 e3 e4 e5 e7 e8 ⊢
      simp only [matchIfaceRe, e1, e2, e3, e4, e5, e6, Bool.false_eq_true,
        if_false, slashSplit_slash, e7, e8, dotSplit_nil, List.all_nil,
        if_true, List.append_nil, List.append_assoc]
    | cons w ws' =>
      have hw : isSpaceC w = true := hws2 w (by simp)
      simp only [matchIfaceRe, e1, e2, e3, e4, e5, e6, Bool.false_eq_true,
        if_false, slashSplit_slash, e7, e8,
        dotSplit_other w ws' (space_ne_dot w hw), hallws2, if_true,
        List.append_nil, List.append_assoc]
  · -- slash group and dot group both present
    have hnd := head_cons_not_digit '/' (by decide) (d2 ++ ('.' :: (d3 ++ ws2)))
    have hnd3 := head_cons_not_digit '.' (by decide) (d3 ++ ws2)
    have e1 := dropWhile_append_all isSpaceC ws1
      (ls ++ (d1 ++ ('/' :: (d2 ++ ('.' :: (d3 ++ ws2)))))) hws1
      (head_ls_d1_not_space ls d1 ('/' :: (d2 ++ ('.' :: (d3 ++ ws2)))) hls hd1 hd1d)
    have e2 := takeWhile_append_all isAlphaC ls
      (d1 ++ ('/' :: (d2 ++ ('.' :: (d3 ++ ws2))))) hls
      (head_d1_not_alpha d1 ('/' :: (d2 ++ ('.' :: (d3 ++ ws2)))) hd1 hd1d)
    have e3 := dropWhile_append_all isAlphaC ls
      (d1 ++ ('/' :: (d2 ++ ('.' :: (d3 ++ ws2))))) hls
      (head_d1_not_alpha d1 ('/' :: (d2 ++ ('.' :: (d3 ++ ws2)))) hd1 hd1d)
    have e4 := takeWhile_append_all isDigitC d1
      ('/' :: (d2 ++ ('.' :: (d3 ++ ws2)))) hd1d hnd
    have e5 := dropWhile_append_all isDigitC d1
      ('/' :: (d2 ++ ('.' :: (d3 ++ ws2)))) hd1d hnd
    have e7 := takeWhile_append_all isDigitC d2 ('.' :: (d3 ++ ws2)) hd2 hnd3
    have e8 := dropWhile_append_all isDigitC d2 ('.' :: (d3 ++ ws2)) hd2 hnd3
    have e9 := takeWhile_append_all isDigitC d3 ws2 hd3 (head_ws_not_digit ws2 hws2)
    have e10 := dropWhile_append_all isDigitC d3 ws2 hd3 (head_ws_not_digit ws2 hws2)
    simp only [List.cons_append, List.nil_append] at e1 e2 e3 e4 e5 ⊢
    simp only [matchIfaceRe, e1, e2, e3, e4, e5, e6, Bool.false_eq_true,
      if_false, slashSplit_slash, e7, e8, dotSplit_dot, e9, e10, hallws2,
      if_true, List.append_assoc, List.cons_append]

/-- The consumed part of `slashSplit` is empty or a slash followed by
digits. -/
theorem slashSplit_shape (r : Chars) :
    (slashSplit r).1 = [] ∨
      ∃ d2, (slashSplit r).1 = '/' :: d2 ∧ ∀ c ∈ d2, isDigitC c = true := by
  unfold slashSplit
  split
  · rename_i rest
    exact .inr ⟨rest.takeWhile isDigitC, rfl,
      fun c hc => List.mem_takeWhile_imp hc⟩
  · exact .inl rfl

/-- The consumed part of `dotSplit` is empty or a dot followed by digits. -/
theorem dotSplit_shape (r : Chars) :
    (dotSplit r).1 = [] ∨
      ∃ d3, (dotSplit r).1 = '.' :: d3 ∧ ∀ c ∈ d3, isDigitC c = true := by
  unfold dotSplit
  split
  · rename_i rest
    exact .inr ⟨rest.takeWhile isDigitC, rfl,
      fun c hc => List.mem_takeWhile_imp hc⟩
  · exact .inl rfl

/-- Inversion of `iface_re`: a successful match yields an at-most-2-letter
group 1 and a group 2 of the shape digits, optional slash-digits group,
optional dot-digits group. -/
theorem matchIfaceRe_inv (s g1 g2 : Chars) (h : matchIfaceRe s = some (g1, g2)) :
    (∀ c ∈ g1, isAlphaC c = true) ∧ g1.length ≤ 2 ∧
      ∃ d1 sp dp, g2 = d1 ++ (sp ++ dp) ∧ d1 ≠ [] ∧
        (∀ c ∈ d1, isDigitC c = true) ∧
        (sp = [] ∨ ∃ d2, sp = '/' :: d2 ∧ ∀ c ∈ d2, isDigitC c = true) ∧
        (dp = [] ∨ ∃ d3, dp = '.' :: d3 ∧ ∀ c ∈ d3, isDigitC c = true) := by
  simp only [matchIfaceRe] at h
  split at h
  · exact absurd h (by simp)
  · rename_i hne
    split at h
    · simp only [Option.some.injEq, Prod.mk.injEq] at h
      obtain ⟨hg1, hg2⟩ := h
      refine ⟨?_, ?_, ?_⟩
      · intro c hc
        rw [← hg1] at hc
        exact List.mem_takeWhile_imp (List.mem_of_mem_take hc)
      · rw [← hg1]
        exact List.length_take_le 2 _
      · set t1 := List.dropWhile isSpaceC s
        set r2 := List.dropWhile isAlphaC t1
        set d1 := List.takeWhile isDigitC r2
        set r3 := List.dropWhile isDigitC r2
        refine ⟨d1, (slashSplit r3).1, (dotSplit (slashSplit r3).2).1, ?_, ?_,
          ?_, slashSplit_shape r3, dotSplit_shape (slashSplit r3).2⟩
        · rw [← hg2, List.append_assoc]
        · intro hnil
          exact hne (by rw [hnil]; rfl)
        · exact fun c hc => List.mem_takeWhile_imp hc
    · exact absurd h (by simp)

/-- `splitIface` succeeds on every name made of a letter run followed by a
numeric path of the accepted shape, returning the first two letters as
prefix and the concatenation as key. -/
theorem splitIface_accepts (ls d1 sp dp : Chars)
    (hls : ∀ c ∈ ls, isAlphaC c = true)
    (hd1 : d1 ≠ []) (hd1d : ∀ c ∈ d1, isDigitC c = true)
    (hsp : sp = [] ∨ ∃ d2, sp = '/' :: d2 ∧ ∀ c ∈ d2, isDigitC c = true)
    (hdp : dp = [] ∨ ∃ d3, dp = '.' :: d3 ∧ ∀ c ∈ d3, isDigitC c = true) :
    splitIface (ls ++ (d1 ++ (sp ++ dp))) =
      .ok (ls.take 2 ++ (d1 ++ (sp ++ dp)), ls.take 2, d1 ++ (sp ++ dp)) := by
  have hm := matchIfaceRe_accepts [] ls d1 sp dp [] (by simp) hls hd1 hd1d hsp
    hdp (by simp)
  simp only [List.nil_append, List.append_nil] at hm
  have hne : (d1 ++ (sp ++ dp)).isEmpty = false := by
    cases d1 with
    | nil => exact absurd rfl hd1
    | cons _ _ => rfl
  simp only [splitIface, hm, hne, Bool.not_false, Bool.or_true, if_true]

/-- C5 (amended): the identifier normalizer accepts every raw name made of
a letter run (optional 1-2 letter prefix plus ignored further letters)
followed by a slot/port path matching `\d+(/\d*)?(\.\d*)?` — at most one
slash component — and returns the key prefix+path; paths with two or more
slash-separated components (for example `Gi1/2/3`) are instead rejected
with `MalformedInterfaceName`. -/
theorem c5_accepts_single_slash_paths (ls d1 sp dp : Chars)
    (hls : ∀ c ∈ ls, isAlphaC c = true)
    (hd1 : d1 ≠ []) (hd1d : ∀ c ∈ d1, isDigitC c = true)
    (hsp : sp = [] ∨ ∃ d2, sp = '/' :: d2 ∧ ∀ c ∈ d2, isDigitC c = true)
    (hdp : dp = [] ∨ ∃ d3, dp = '.' :: d3 ∧ ∀ c ∈ d3, isDigitC c = true) :
    splitIface (ls ++ (d1 ++ (sp ++ dp))) =
      .ok (ls.take 2 ++ (d1 ++ (sp ++ dp)), ls.take 2, d1 ++ (sp ++ dp)) :=
  splitIface_accepts ls d1 sp dp hls hd1 hd1d hsp hdp

/-- Witness for C5 (amended): the single-slash name `Gi1/2` is accepted
with key `Gi1/2`. -/
theorem c5_accepts_single_slash_paths_witness :
    splitIface ((chars (r"Gi")) ++ ((chars (r"1")) ++ (('/' :: chars (r"2")) ++ []))) =
      .ok ((chars (r"Gi")).take 2 ++ ((chars (r"1")) ++ (('/' :: chars (r"2")) ++ [])),
        (chars (r"Gi")).take 2, (chars (r"1")) ++ (('/' :: chars (r"2")) ++ [])) :=
  c5_accepts_single_slash_paths (chars (r"Gi")) (chars (r"1"))
    ('/' :: chars (r"2")) [] (by decide) (by decide) (by decide)
    (.inr ⟨chars (r"2"), rfl, by decide⟩) (.inl rfl)

/-- C8: normalization is idempotent — when `splitIface` accepts a raw name
and returns `(key, prefix, path)`, feeding the key back in succeeds and
returns exactly the same triple. -/
theorem c8_normalize_idempotent (raw k p n : Chars)
    (h : splitIface raw = .ok (k, p, n)) : splitIface k = .ok (k, p, n) := by
  simp only [splitIface] at h
  split at h
  · rename_i g1 g2 hmatch
    split at h
    · simp only [Except.ok.injEq, Prod.mk.injEq] at h
      obtain ⟨hk, hp, hn⟩ := h
      obtain ⟨halpha, hlen, d1, sp, dp, hg2, hd1, hd1d, hsp, hdp⟩ :=
        matchIfaceRe_inv raw g1 g2 hmatch
      subst hk hp hn hg2
      have hacc := splitIface_accepts g1 d1 sp dp halpha hd1 hd1d hsp hdp
      rw [List.take_of_length_le hlen] at hacc
      exact hacc
    · exact absurd h (by simp)
  · exact absurd h (by simp)

/-- Witness for C8 at the long-form name `TenGigabitEthernet4/1`. -/
theorem c8_normalize_idempotent_witness :
    splitIface (chars (r"Te4/1")) =
      .ok (chars (r"Te4/1"), chars (r"Te"), chars (r"4/1")) :=
  c8_normalize_idempotent (chars (r"TenGigabitEthernet4/1"))
    (chars (r"Te4/1")) (chars (r"Te")) (chars (r"4/1")) (by decide)

/-- Association lookup distributes over append. -/
theorem lookupIf_append (xs ys : List (Chars × Iface)) (k : Chars) :
    lookupIf (xs ++ ys) k =
      match lookupIf xs k with
      | some v => some v
      | none => lookupIf ys k := by
  induction xs with
  | nil => rfl
  | cons p rest ih =>
    obtain ⟨k0, v⟩ := p
    simp only [List.cons_append, lookupIf]
    by_cases h : k0 = k
    · simp [h]
    · simp [h, ih]

/-- Get-or-create of an interface never changes any link status (a fresh
interface has unknown link status). -/
theorem ifaceLink_getCreate (d : Dev) (k k' : Chars) :
    ifaceLink (getCreateIface d k) k' = ifaceLink d k' := by
  unfold getCreateIface
  cases hl : lookupIf d.ifaces k with
  | some v => rfl
  | none =>
    unfold ifaceLink
    rw [lookupIf_append]
    cases hl' : lookupIf d.ifaces k' with
    | some v => rfl
    | none =>
      by_cases hk : k = k'
      · subst hk
        simp [lookupIf]
      · simp [lookupIf, hk]

/-- Updating an interface with a function that does not touch the link
status preserves every link status. -/
theorem lookupIf_map_upd (xs : List (Chars × Iface)) (k k' : Chars)
    (f : Iface → Iface) (hf : ∀ i, (f i).linkStatus = i.linkStatus) :
    (lookupIf (xs.map (fun p => if p.1 = k then (p.1, f p.2) else p)) k').bind
        Iface.linkStatus =
      (lookupIf xs k').bind Iface.linkStatus := by
  induction xs with
  | nil => rfl
  | cons p rest ih =>
    obtain ⟨k0, v⟩ := p
    simp only [List.map_cons]
    by_cases h0 : k0 = k
    · simp only [h0, if_pos rfl]
      unfold lookupIf
      by_cases h1 : k0 = k'
      · simp only [h0] at h1
        simp [h1, hf v]
      · simp only [h0] at h1
        simp [h1, ih]
    · simp only [if_neg h0]
      unfold lookupIf
      by_cases h1 : k0 = k'
      · simp [h1]
      · simp [h1, ih]

/-- Record-level version of `lookupIf_map_upd`. -/
theorem ifaceLink_updIface (d : Dev) (k : Chars) (f : Iface → Iface)
    (k' : Chars) (hf : ∀ i, (f i).linkStatus = i.linkStatus) :
    ifaceLink (updIface d k f) k' = ifaceLink d k' := by
  unfold ifaceLink updIface
  exact lookupIf_map_upd d.ifaces k k' f hf

/-- `splitIface` rejects the empty name. -/
theorem splitIface_nil : splitIface [] = .error .malformedInterfaceName := by
  decide

/-- C7: when the status column resolves admin status to down (text
`admin down` or `down`), a physical-prefix interface line always succeeds
— the protocol/link column is never examined, no `UnknownStatus` is raised
whatever text it holds — and every link status, in particular that of the
parsed interface, is left exactly as it was (unknown when freshly
created). -/
theorem c7_admin_down_ignores_protocol (st : St) (line k pfx num : Chars)
    (hsplit : splitIface (rstrip (line.take 31)) = .ok (k, pfx, num))
    (hphys : pfx = chars (r"Fa") ∨ pfx = chars (r"Gi") ∨ pfx = chars (r"Te"))
    (hdown : rstrip ((line.drop 31).take 15) = chars (r"admin down") ∨
      rstrip ((line.drop 31).take 15) = chars (r"down")) :
    ∃ st', parseInterfaceLine st line = .ok (true, st') ∧
      ∀ k', ifaceLink st'.subj k' = ifaceLink st.subj k' := by
  have hni : (rstrip (line.take 31)).isEmpty = false := by
    cases hcc : rstrip (line.take 31) with
    | nil => rw [hcc, splitIface_nil] at hsplit; exact absurd hsplit (by simp)
    | cons a as => rfl
  simp only [parseInterfaceLine, hni, Bool.false_eq_true, if_false, hsplit]
  rw [if_pos hphys, if_pos hdown]
  have e1 : ∀ (d : Dev) (kk k' v : Chars),
      ifaceLink (updIface d kk (fun i =>
        { i with adminStatus := some v })) k' = ifaceLink d k' :=
    fun d kk k' v => ifaceLink_updIface d kk _ k' (fun i => rfl)
  have e2 : ∀ (d : Dev) (kk k' v w : Chars),
      ifaceLink (updIface d kk (fun i =>
        { i with name := some v, pfx := some w })) k' = ifaceLink d k' :=
    fun d kk k' v w => ifaceLink_updIface d kk _ k' (fun i => rfl)
  have e3 : ∀ (d : Dev) (kk k' v : Chars),
      ifaceLink (updIface d kk (fun i =>
        { i with descr := some v })) k' = ifaceLink d k' :=
    fun d kk k' v => ifaceLink_updIface d kk _ k' (fun i => rfl)
  refine ⟨_, rfl, fun k' => ?_⟩
  dsimp only
  rw [e1]
  split <;> simp only [e2, e3, ifaceLink_getCreate]

/-- Witness for C7 at an admin-down line with protocol column `garbage!`. -/
theorem c7_admin_down_ignores_protocol_witness :
    ∃ st', parseInterfaceLine initSt c7Line = .ok (true, st') ∧
      ∀ k', ifaceLink st'.subj k' = ifaceLink initSt.subj k' :=
  c7_admin_down_ignores_protocol initSt c7Line (chars (r"Gi2/1"))
    (chars (r"Gi")) (chars (r"2/1")) (by decide) (by decide) (by decide)

/-- C10: while no Device ID has been captured for the current entry, an
`Interface: ..., Port ID ...` line (or any line the Device ID pattern does
not match) is ignored entirely: the step leaves the state unchanged — no
interface pair is captured and no adjacency is recorded — and the rest of
the input is processed exactly as if the line were absent, even when a
Device ID line follows later in the entry. -/
theorem c10_iface_line_before_device_id_ignored (ns : NSt) (line : Chars)
    (rest : List Chars) (hstage : ns.stage = .searchS)
    (hdev : ns.deviceId = none) (hsep : line ≠ separatorLine)
    (hnodev : matchDeviceId line = none) :
    stepN ns line = .ok ns ∧
      neighborsLoop ns (line :: rest) = neighborsLoop ns rest := by
  have hstep : stepN ns line = .ok ns := by
    simp only [stepN, if_neg hsep, hstage, hdev, truthyOpt, Bool.not_false,
      if_true, hnodev]
    split <;> rfl
  refine ⟨hstep, ?_⟩
  simp only [neighborsLoop, hstep]

/-- Witness for C10: a concrete interface line in an entry with no device
id yet is a no-op. -/
theorem c10_iface_line_before_device_id_ignored_witness :
    stepN c10NSt c10IfaceLine = .ok c10NSt ∧
      neighborsLoop c10NSt (c10IfaceLine :: []) = neighborsLoop c10NSt [] :=
  c10_iface_line_before_device_id_ignored c10NSt c10IfaceLine [] (by decide)
    (by decide) (by decide) (by decide)

/-- A captured device id has at least two characters, hence is nonempty. -/
theorem matchDeviceId_ne_nil (line d : Chars) (h : matchDeviceId line = some d) :
    d ≠ [] := by
  simp only [matchDeviceId] at h
  split at h
  · simp at h
  · rename_i r heq
    split at h
    · simp at h
    · rename_i c cs
      split at h
      · simp at h
      · split at h
        · rename_i hlen
          simp only [Option.some.injEq] at h
          subst h
          intro hnil
          rw [hnil] at hlen
          simp at hlen
        · simp at h
  
/-- `splitIface` fails only with `MalformedInterfaceName`. -/
theorem splitIface_error_kind (s : Chars) (e : PErr)
    (h : splitIface s = .error e) : e = .malformedInterfaceName := by
  simp only [splitIface] at h
  split at h
  · split at h
    · simp at h
    · simp only [Except.error.injEq] at h
      exact h.symm
  · simp only [Except.error.injEq] at h
    exact h.symm

/-- One neighbor-parser step fails only with `MalformedInterfaceName`:
in particular the `EmptyDeviceId` raise is unreachable, because the
Device ID pattern never captures an empty value. -/
theorem stepN_error_kind (ns : NSt) (line : Chars) (e : PErr)
    (h : stepN ns line = .error e) : e = .malformedInterfaceName := by
  simp only [stepN] at h
  split at h
  · simp at h
  · split at h
    · simp at h
    · split at h
      · rename_i e' heq
        simp only [Except.error.injEq] at h
        subst h
        split at heq
        · split at heq
          · rename_i d hmd
            split at heq
            · rename_i hemp
              have hne := matchDeviceId_ne_nil line d hmd
              cases d with
              | nil => exact absurd rfl hne
              | cons _ _ => simp at hemp
            · simp at heq
          · simp at heq
        · split at heq
          · split at heq
            · rename_i A B hmp
              split at heq
              · rename_i e2 hse
                simp only [Except.error.injEq] at heq
                subst heq
                exact splitIface_error_kind _ _ hse
              · rename_i t hsa
                split at heq
                · rename_i e2 hse
                  simp only [Except.error.injEq] at heq
                  subst heq
                  exact splitIface_error_kind _ _ hse
                · simp at heq
            · simp at heq
          · simp at heq
      · rename_i ns2 heq
        split at h
        · split at h
          · simp at h
          · simp at h
        · simp at h

/-- The neighbor-parser loop fails only with `MalformedInterfaceName`. -/
theorem neighborsLoop_error_kind (lines : List Chars) : ∀ (ns : NSt) (e : PErr),
    neighborsLoop ns lines = .error e → e = .malformedInterfaceName := by
  induction lines with
  | nil =>
    intro ns e h
    simp [neighborsLoop] at h
  | cons line rest ih =>
    intro ns e h
    simp only [neighborsLoop] at h
    split at h
    · rename_i e' heq
      simp only [Except.error.injEq] at h
      subst h
      exact stepN_error_kind ns line e' heq
    · rename_i ns' heq
      exact ih ns' e h

/-- `dropMarker` strips its own marker from the front. -/
theorem dropMarker_append (m s : Chars) : dropMarker m (m ++ s) = some s := by
  induction m with
  | nil => simp [dropMarker]
  | cons a ms ih => simp [dropMarker, ih]

/-- C9: the Device ID pattern requires at least two non-whitespace
characters in its capture, so the empty-device-id branch is dead code:
`parseNeighbors` never fails with `EmptyDeviceId` on any input, and a
`Device ID: ` line carrying a single (non-whitespace) character simply
does not match, leaving the entry's device id uncaptured. -/
theorem c9_empty_device_id_unreachable :
    (∀ (st : St) (lines : List Chars),
      parseNeighbors st lines ≠ .error .emptyDeviceId) ∧
    (∀ c : Char, isSpaceC c = false →
      matchDeviceId (chars (r"Device ID: ") ++ [c]) = none) := by
  constructor
  · intro st lines h
    simp only [parseNeighbors] at h
    have := neighborsLoop_error_kind lines (initNSt st) _ h
    exact absurd this (by decide)
  · intro c hc
    have hr : rstrip [c] = [c] := by
      simp [rstrip, List.dropWhile_cons, hc]
    simp only [matchDeviceId, dropMarker_append, hr, hc, Bool.false_eq_true,
      if_false, List.length_cons, List.length_nil]
    simp

/-- Witness for C9: the single-character line `Device ID: X` is not
matched. -/
theorem c9_empty_device_id_unreachable_witness :
    matchDeviceId (chars (r"Device ID: ") ++ ['X']) = none :=
  c9_empty_device_id_unreachable.2 'X' (by decide)

/-- A key returned by `splitIface` is nonempty (group 2 always is). -/
theorem splitIface_key_ne_nil (s k p n : Chars)
    (h : splitIface s = .ok (k, p, n)) : k ≠ [] := by
  simp only [splitIface] at h
  split at h
  · rename_i g1 g2 hm
    split at h
    · simp only [Except.ok.injEq, Prod.mk.injEq] at h
      obtain ⟨hk, hp, hn⟩ := h
      obtain ⟨-, -, d1, sp, dp, hg2, hd1, -, -, -⟩ := matchIfaceRe_inv s g1 g2 hm
      intro hnil
      rw [← hk] at hnil
      have hg2nil := (List.append_eq_nil.mp hnil).2
      rw [hg2] at hg2nil
      exact hd1 (List.append_eq_nil.mp hg2nil).1
    · simp at h
  · simp at h

/-- One neighbor-parser step never removes an adjacency. -/
theorem stepN_adj_mono (ns ns' : NSt) (line : Chars)
    (h : stepN ns line = .ok ns') :
    ∀ x, x ∈ ns.st.adj → x ∈ ns'.st.adj := by
  intro x hx
  simp only [stepN] at h
  split at h
  · simp only [Except.ok.injEq] at h
    subst h
    exact hx
  · split at h
    · simp only [Except.ok.injEq] at h
      subst h
      exact hx
    · split at h
      · simp at h
      · rename_i ns2 heq
        have hst : ns2.st = ns.st := by
          split at heq
          · split at heq
            · split at heq
              · simp at heq
              · simp only [Except.ok.injEq] at heq
                subst heq
                rfl
            · simp only [Except.ok.injEq] at heq
              subst heq
              rfl
          · split at heq
            · split at heq
              · split at heq
                · simp at heq
                · split at heq
                  · simp at heq
                  · simp only [Except.ok.injEq] at heq
                    subst heq
                    rfl
              · simp only [Except.ok.injEq] at heq
                subst heq
                rfl
            · simp only [Except.ok.injEq] at heq
              subst heq
              rfl
        split at h
        · split at h
          · simp only [Except.ok.injEq] at h
            subst h
            simp only [linkNeighbor]
            rw [hst]
            exact List.mem_append_left _ hx
          · simp only [Except.ok.injEq] at h
            subst h
            rw [hst]
            exact hx
        · simp only [Except.ok.injEq] at h
          subst h
          rw [hst]
          exact hx

/-- The neighbor-parser loop never removes an adjacency. -/
theorem neighborsLoop_adj_mono (lines : List Chars) : ∀ (ns ns' : NSt),
    neighborsLoop ns lines = .ok ns' →
    ∀ x, x ∈ ns.st.adj → x ∈ ns'.st.adj := by
  induction lines with
  | nil =>
    intro ns ns' h x hx
    simp only [neighborsLoop, Except.ok.injEq] at h
    subst h
    exact hx
  | cons line rest ih =>
    intro ns ns' h x hx
    simp only [neighborsLoop] at h
    split at h
    · simp at h
    · rename_i ns1 heq
      exact ih ns1 ns' h x (stepN_adj_mono ns ns1 line heq x hx)

/-- The neighbor-parser loop splits over concatenation. -/
theorem neighborsLoop_append (xs ys : List Chars) : ∀ ns : NSt,
    neighborsLoop ns (xs ++ ys) =
      match neighborsLoop ns xs with
      | .ok ns' => neighborsLoop ns' ys
      | .error e => .error e := by
  induction xs with
  | nil => intro ns; simp [neighborsLoop]
  | cons line rest ih =>
    intro ns
    simp only [List.cons_append, neighborsLoop]
    split
    · rename_i e heq
      simp
    · rename_i ns1 heq
      exact ih ns1

/-- When an entry is in search state with a captured (nonempty) device id
and no interface pair yet, a matching Interface/Port ID line whose two
names normalize successfully makes the step record the adjacency in both
directions. -/
theorem stepN_links (ns : NSt) (line d A B a pa na b pb nb : Chars)
    (hstage : ns.stage = .searchS)
    (hdev : ns.deviceId = some d) (hd : d ≠ [])
    (hloc : ns.localId = none)
    (hmp : matchIfacePort line = some (A, B))
    (hsa : splitIface A = .ok (a, pa, na))
    (hsb : splitIface B = .ok (b, pb, nb)) :
    ∃ ns', stepN ns line = .ok ns' ∧
      ((ns.st.subjId, a), (d, b)) ∈ ns'.st.adj ∧
      ((d, b), (ns.st.subjId, a)) ∈ ns'.st.adj := by
  have hsep : line ≠ separatorLine := by
    intro he
    have hnone : matchIfacePort separatorLine = none := by decide
    rw [he, hnone] at hmp
    simp at hmp
  have hde : d.isEmpty = false := by
    cases d with
    | nil => exact absurd rfl hd
    | cons _ _ => rfl
  have hae : a.isEmpty = false := by
    have := splitIface_key_ne_nil A a pa na hsa
    cases a with
    | nil => exact absurd rfl this
    | cons _ _ => rfl
  have hbe : b.isEmpty = false := by
    have := splitIface_key_ne_nil B b pb nb hsb
    cases b with
    | nil => exact absurd rfl this
    | cons _ _ => rfl
  have hns : ¬ns.stage = Stage.skipS := by
    rw [hstage]
    simp
  have hstep : stepN ns line = .ok (linkNeighbor
      { ns with deviceId := some d, localId := some a, remoteId := some b }
      d a b) := by
    simp [stepN, if_neg hsep, if_neg hns, hdev, hloc, truthyOpt, hde, hmp,
      hsa, hsb, truthyS, hae, hbe, linkNeighbor]
  refine ⟨_, hstep, ?_, ?_⟩ <;> simp [linkNeighbor]

/-- C6: when an entry has a captured (nonempty) device id, no interface
pair yet, and the next line matches the Interface/Port ID pattern with
both names normalizing, then — provided the whole input parses — the
final adjacency contains both the local-to-remote and the remote-to-local
link: the adjacency is symmetric and survives the rest of the input. -/
theorem c6_symmetric_adjacency (st0 : St) (pre post : List Chars)
    (line : Chars) (ns1 : NSt) (d A B a pa na b pb nb : Chars)
    (hpre : neighborsLoop (initNSt st0) pre = .ok ns1)
    (hstage : ns1.stage = .searchS)
    (hdev : ns1.deviceId = some d) (hd : d ≠ [])
    (hloc : ns1.localId = none)
    (hmp : matchIfacePort line = some (A, B))
    (hsa : splitIface A = .ok (a, pa, na))
    (hsb : splitIface B = .ok (b, pb, nb))
    (hok : isOkE (parseNeighbors st0 (pre ++ line :: post)) = true) :
    ((ns1.st.subjId, a), (d, b)) ∈
        adjAfter (parseNeighbors st0 (pre ++ line :: post)) ∧
      ((d, b), (ns1.st.subjId, a)) ∈
        adjAfter (parseNeighbors st0 (pre ++ line :: post)) := by
  obtain ⟨ns2, hstep, hm1, hm2⟩ := stepN_links ns1 line d A B a pa na b pb nb
    hstage hdev hd hloc hmp hsa hsb
  have hfull : parseNeighbors st0 (pre ++ line :: post) =
      neighborsLoop ns2 post := by
    simp only [parseNeighbors, neighborsLoop_append, hpre, neighborsLoop,
      hstep]
  cases hfin : neighborsLoop ns2 post with
  | error e =>
    rw [hfull, hfin] at hok
    simp [isOkE] at hok
  | ok nsF =>
    rw [hfull, hfin]
    simp only [adjAfter]
    exact ⟨neighborsLoop_adj_mono post ns2 nsF hfin _ hm1,
      neighborsLoop_adj_mono post ns2 nsF hfin _ hm2⟩

/-- Witness for C6: the sample neighbor entry of the source comments. -/
theorem c6_symmetric_adjacency_witness :
    ((c6NSt.st.subjId, chars (r"Te3/4")),
        (chars (r"C65M4.jscc.ru"), chars (r"Te9/2"))) ∈
      adjAfter (parseNeighbors initSt (c6Pre ++ c10IfaceLine :: [])) ∧
    ((chars (r"C65M4.jscc.ru"), chars (r"Te9/2")),
        (c6NSt.st.subjId, chars (r"Te3/4"))) ∈
      adjAfter (parseNeighbors initSt (c6Pre ++ c10IfaceLine :: [])) :=
  c6_symmetric_adjacency initSt c6Pre [] c10IfaceLine c6NSt
    (chars (r"C65M4.jscc.ru")) (chars (r"TenGigabitEthernet3/4"))
    (chars (r"TenGigabitEthernet9/2")) (chars (r"Te3/4")) (chars (r"Te"))
    (chars (r"3/4")) (chars (r"Te9/2")) (chars (r"Te")) (chars (r"9/2"))
    (by decide) (by decide) (by decide) (by decide) (by decide) (by decide)
    (by decide) (by decide) (by decide)

example : matchIfaceRe (chars (r"Gi1/2/3")) = none := by decide
example : matchIfaceRe (chars (r"Gi1/.")) =
    some (chars (r"Gi"), chars (r"1/.")) := by decide
example : matchIfaceRe (chars (r"Gi1/")) =
    some (chars (r"Gi"), chars (r"1/")) := by decide
example : matchIfaceRe (chars (r"Gi1.")) =
    some (chars (r"Gi"), chars (r"1.")) := by decide
example : matchIfaceRe (chars (r"1.2.3")) = none := by decide
example : matchIfaceRe (chars (r"Gi")) = none := by decide
example : matchIfaceRe (chars (r"123")) = some ([], chars (r"123")) := by decide
example : matchIfaceRe (chars (r"Gi1.2")) =
    some (chars (r"Gi"), chars (r"1.2")) := by decide
example : matchIfaceRe (chars (r"Gi1/2.3")) =
    some (chars (r"Gi"), chars (r"1/2.3")) := by decide
example : matchIfaceRe (chars (r"gi 1/2")) = none := by decide
example : matchIfaceRe (chars (r"Gi1x2")) = none := by decide
example : matchIfaceRe (chars (r"Gi1/2x")) = none := by decide
example : matchIfaceRe (chars (" \t42/7.9  ")) =
    some ([], chars (r"42/7.9")) := by decide
example : matchIfaceRe (chars (r"abc12/34.56")) =
    some (chars (r"ab"), chars (r"12/34.56")) := by decide
example : matchIfaceRe (chars (r"Gi1//2")) = none := by decide
example : matchIfaceRe (chars (r"Gi.1")) = none := by decide

example : matchDeviceId (chars (r"Device ID:  ab")) = none := by decide
example : matchDeviceId (chars (r"Device ID: ab")) =
    some (chars (r"ab")) := by decide
example : matchDeviceId (chars (r"Device ID: a b")) =
    some (chars (r"a b")) := by decide
example : matchDeviceId (chars (r"Device ID: ab   ")) =
    some (chars (r"ab")) := by decide
example : matchDeviceId (chars (r"Device ID: a ")) = none := by decide
example : matchDeviceId (chars (r"Device ID: ")) = none := by decide
example : matchDeviceId (chars ("Device ID: \tab")) = none := by decide

example : matchIfacePort (chars (r"Interface: A,,  Port ID (outgoing port): B")) =
    some (chars (r"A,"), chars (r"B")) := by decide
example : matchIfacePort (chars (r"Interface: A, Port ID (outgoing port): B")) =
    none := by decide
example : matchIfacePort (chars (r"Interface: A,  Port ID (outgoing port): B C")) =
    none := by decide
example : matchIfacePort (chars (r"Interface: A,  Port ID (outgoing port): B  ")) =
    some (chars (r"A"), chars (r"B")) := by decide
example : matchIfacePort (chars (r"Interface: ,  Port ID (outgoing port): B")) =
    none := by decide
example : matchIfacePort (chars (r"Interface: A,B,  Port ID (outgoing port): C")) =
    some (chars (r"A,B"), chars (r"C")) := by decide
